import Mathlib

/-!
Verification of borist-nababan-cloud/karunia-dashboard-app.

The repository ships one source file, `next.config.js`, embedded below as
`Karunia.nextConfig` and `Karunia.webpack`.  The remaining components of
the design record (Token Store, HTTP Client, Generic CRUD Accessor,
Session Controller, Route Guard) are not present under `src/`; they are
modelled from the specification, each such definition carrying a doc
comment that starts with `Modelled from the spec:`.
-/

namespace Karunia

/-- Value bound to a key in webpack's `resolve.alias` object: either a
replacement path string or the literal `false`, which disables resolution
of the module. -/
inductive AliasVal
| path (s : String)
| disabled
deriving DecidableEq

/-- A webpack module rule as far as `next.config.js` builds one: the
file-name test (kept as the source text of the regular expression), the
module type, and the optional `generator.filename`. -/
structure ModuleRule where
  test : String
  type : String
  generatorFilename : Option String
deriving DecidableEq

/-- An entry of webpack's `externals` array: a finite map from module name
to the global it resolves to, kept as an association list. -/
abbrev ExternalEntry := List (String × String)

/-- The webpack configuration object, as far as the customization in
`next.config.js` touches it.  `resolveAlias` models `config.resolve.alias`
(a JS object, possibly absent) as an optional partial map from key to
alias value; `externals` models the possibly-absent `config.externals`
array; `moduleRules` models `config.module.rules`; `rest` stands for every
other field of the config, which the function never touches. -/
structure WebpackConfig (ρ : Type) where
  resolveAlias : Option (String → Option AliasVal)
  externals : Option (List ExternalEntry)
  moduleRules : List ModuleRule
  rest : ρ

/-- The asset/resource rule pushed for image files, from
`next.config.js` lines 27-33. -/
def imageAssetRule : ModuleRule :=
  { test := "\\.(jpg|jpeg|png|gif|svg)$"
  , type := "asset/resource"
  , generatorFilename := some "static/images/[name].[hash][ext]" }

/-- The externals entry pushed by `next.config.js` lines 22-24: maps the
module name `google.maps` to the global `google.maps`. -/
def googleMapsExternal : ExternalEntry := [("google.maps", "google.maps")]

/-- The `webpack` customization function from `next.config.js` lines
14-36: spreads the existing `resolve.alias` (or the empty object when
absent) and binds `"sharp$"` to `false`; defaults `externals` to the empty
array when absent and pushes the google.maps entry; pushes the image
asset rule onto `module.rules`; returns the config. -/
def webpack {ρ : Type} (config : WebpackConfig ρ) : WebpackConfig ρ :=
  { resolveAlias := some (fun k =>
      if k = "sharp$" then some AliasVal.disabled
      else
        match config.resolveAlias with
        | some a => a k
        | none => none)
  , externals := some (config.externals.getD [] ++ [googleMapsExternal])
  , moduleRules := config.moduleRules ++ [imageAssetRule]
  , rest := config.rest }

/-- The static fields of the exported Next.js configuration object. -/
structure NextConfig where
  output : String
  imagesUnoptimized : Bool
  reactStrictMode : Bool
  eslintIgnoreDuringBuilds : Bool
  typescriptIgnoreBuildErrors : Bool
deriving DecidableEq

/-- The `nextConfig` object from `next.config.js` lines 2-13 (its
`webpack` field is the function `webpack` above). -/
def nextConfig : NextConfig :=
  { output := "export"
  , imagesUnoptimized := true
  , reactStrictMode := true
  , eslintIgnoreDuringBuilds := true
  , typescriptIgnoreBuildErrors := true }

/-- Modelled from the spec: the Session Controller's state machine (§4.4)
with states Unknown (initial), Checking, Authenticated, Unauthenticated;
the Session Controller itself is not under `src/`.  An authenticated
session carries the returned user id and role. -/
inductive SessionState
| unknown
| checking
| authenticated (user : Nat) (role : String)
| unauthenticated
deriving DecidableEq

/-- Modelled from the spec: the outcome of the identity-verification call
when it resolves (§4.4) — success with the returned user id and role, or
failure (expired/invalid credential or error); the call itself is not
under `src/`. -/
inductive IdentityOutcome
| success (user : Nat) (role : String)
| failure
deriving DecidableEq

/-- Modelled from the spec: the fixed 10-second timer bound of the session
bootstrap race (§4.4), in milliseconds. -/
def sessionTimeoutMs : Nat := 10000

/-- Modelled from the spec: the race of the identity-verification call
against the fixed timer (§4.4, §5, §9).  The call's resolution is given
as an optional (time in ms, outcome) pair, `none` meaning it never
resolves; the call wins the race exactly when it resolves strictly before
the timer fires. -/
def callResolvesFirst (res : Option (Nat × IdentityOutcome)) : Bool :=
  match res with
  | some (t, _) => t < sessionTimeoutMs
  | none => false

/-- Modelled from the spec: the Session Controller bootstrap (§4.4), not
under `src/`.  With no stored credential it goes directly to
Unauthenticated; with a credential it races the identity call against the
timer: a successful call resolving first yields Authenticated with the
returned user/role and keeps the credential, a failing call resolving
first clears the credential and yields Unauthenticated, and the timer
firing first is treated as failure (credential cleared, Unauthenticated)
whatever the call would later return.  The result is the final state
paired with the final content of the Token Store. -/
def runSessionCheck (cred : Option String)
    (res : Option (Nat × IdentityOutcome)) : SessionState × Option String :=
  match cred with
  | none => (SessionState.unauthenticated, none)
  | some c =>
    if callResolvesFirst res then
      match res with
      | some (_, IdentityOutcome.success u r) =>
          (SessionState.authenticated u r, some c)
      | _ => (SessionState.unauthenticated, none)
    else
      (SessionState.unauthenticated, none)

/-- Modelled from the spec: whether a Session Controller state is a
resolved outcome of the bootstrap (§5): Authenticated or Unauthenticated,
as opposed to the transient Unknown/Checking states. -/
def isResolved : SessionState → Bool
  | SessionState.authenticated _ _ => true
  | SessionState.unauthenticated => true
  | SessionState.unknown => false
  | SessionState.checking => false

/-- Modelled from the spec: the mutable application state the 401 handler
touches (§4.1, §4.2, §8): the Token Store content, the Session Controller
state, and the current navigation target. -/
structure AppState where
  tokenStore : Option String
  session : SessionState
  nav : String
deriving DecidableEq

/-- Modelled from the spec: the state forced by an unauthorized response
(§8): Token Store cleared, session Unauthenticated, navigation redirected
to the login view. -/
def loggedOutState : AppState :=
  { tokenStore := none
  , session := SessionState.unauthenticated
  , nav := "/login" }

/-- Modelled from the spec: the response interceptor (§4.2, §7), not under
`src/`: a response with status 401 forces global logout and redirect,
short-circuiting the caller's local handler; any other status is handed
to the caller's local handling. -/
def processResponse (st : AppState) (status : Nat)
    (localHandler : AppState → AppState) : AppState :=
  if status = 401 then loggedOutState else localHandler st

/-- Modelled from the spec: a parameter set of a list call (§3), an
ordered list of named parameters. -/
abbrev ParamSet := List (String × String)

/-- Modelled from the spec: a Query Key (§3) is the resource name plus the
parameter set. -/
def queryKey (resource : String) (params : ParamSet) : String × ParamSet :=
  (resource, params)

/-- Modelled from the spec: the server-state cache (§5), not under
`src/`: an association of query keys to a cached value plus a staleness
flag. -/
abbrev Cache (α : Type) := List ((String × ParamSet) × (α × Bool))

/-- Modelled from the spec: look a query key up in the server-state
cache. -/
def cacheLookup {α : Type} : Cache α → (String × ParamSet) → Option (α × Bool)
  | [], _ => none
  | (k, v) :: rest, key => if k = key then some v else cacheLookup rest key

/-- Modelled from the spec: a `list` call against the cache (§3, §8): a
fresh (non-stale) cached entry under the call's query key is served
without a network request; otherwise the network fetch result is returned
and cached fresh.  `fetch` stands for the value the network would return;
the result is (returned value, new cache, whether a network call was
issued). -/
def listOp {α : Type} (c : Cache α) (resource : String) (params : ParamSet)
    (fetch : α) : α × Cache α × Bool :=
  match cacheLookup c (queryKey resource params) with
  | some (v, stale) =>
    if stale then
      (fetch, (queryKey resource params, (fetch, false)) :: c, true)
    else
      (v, c, false)
  | none =>
    (fetch, (queryKey resource params, (fetch, false)) :: c, true)

/-- Modelled from the spec: invalidation (§3, §5): mark every cached entry
whose query key carries the given resource name as stale. -/
def invalidateResource {α : Type} (c : Cache α) (resource : String) : Cache α :=
  c.map (fun e => if e.1.1 = resource then (e.1, (e.2.1, true)) else e)

/-- Modelled from the spec: the three mutating operations of a CRUD
accessor (§4.3). -/
inductive MutationKind
| create
| update
| remove
deriving DecidableEq

/-- Modelled from the spec: a mutation on a resource (§5, §8), not under
`src/`: whatever its kind, it synchronously marks every cached entry
under the resource's keys as stale before returning the new cache. -/
def mutateOp {α : Type} (_kind : MutationKind) (c : Cache α)
    (resource : String) : Cache α :=
  invalidateResource c resource

/-- Modelled from the spec: the error taxonomy of the CRUD layer (§7). -/
inductive ApiError
| networkError
| unauthorized
| validationError (fields : List (String × String))
| notFound
| timeout
deriving DecidableEq

/-- Modelled from the spec: the single-entity accessor `get(id)` (§4.3,
§6), not under `src/`: the backend's answer for the id is the envelope's
data, an optional entity; when the backend returns no matching entity the
call fails with NotFound, otherwise it succeeds with the entity. -/
def getOp {α : Type} (backendData : Option α) : Except ApiError α :=
  match backendData with
  | some e => Except.ok e
  | none => Except.error ApiError.notFound

/-- Modelled from the spec: backend pagination metadata (§6). -/
structure PaginationMeta where
  page : Nat
  pageSize : Nat
  total : Nat
deriving DecidableEq

/-- Modelled from the spec: the uniform Resource Envelope for list
responses (§3, §6): a data payload plus `meta.pagination`. -/
structure ListEnvelope (α : Type) where
  data : List α
  metaPagination : PaginationMeta
deriving DecidableEq

/-- Modelled from the spec: the result shape of `list` (§4.3): items plus
total. -/
structure ListResult (α : Type) where
  items : List α
  total : Nat
deriving DecidableEq

/-- Modelled from the spec: the parameters of a `list` call (§4.3, §6):
pagination, per-field sort directions, relations to populate. -/
structure ListParams where
  page : Option Nat
  pageSize : Option Nat
  sort : List (String × String)
  populate : List String
deriving DecidableEq

/-- Modelled from the spec: translation of list parameters into the
backend's bracket-notation query parameters (§6): `pagination[page]`,
`pagination[pageSize]`, per-field `sort[field]=asc|desc`, and relation
population entries. -/
def translateParams (p : ListParams) : List (String × String) :=
  (match p.page with
   | some n => [("pagination[page]", toString n)]
   | none => [])
  ++ (match p.pageSize with
      | some n => [("pagination[pageSize]", toString n)]
      | none => [])
  ++ p.sort.map (fun s => ("sort[" ++ s.1 ++ "]", s.2))
  ++ p.populate.map (fun r => ("populate", r))

/-- Modelled from the spec: unwrap the Resource Envelope of a list
response into the result shape (§4.3, §8). -/
def unwrapList {α : Type} (env : ListEnvelope α) : ListResult α :=
  { items := env.data, total := env.metaPagination.total }

/-- Modelled from the spec: the `list` accessor (§4.3), not under `src/`:
issues the translated bracket-notation query and unwraps the envelope the
backend returns for it.  The produced query parameters are returned
alongside the result. -/
def listAccessor {α : Type} (p : ListParams) (env : ListEnvelope α) :
    List (String × String) × ListResult α :=
  (translateParams p, unwrapList env)

/-- Modelled from the spec: an outgoing HTTP request (§4.2): whether it
targets the authentication endpoints, and its bearer-credential
header. -/
structure Request where
  targetsAuthEndpoint : Bool
  authHeader : Option String
deriving DecidableEq

/-- Modelled from the spec: the request interceptor (§4.2), not under
`src/`: for every outgoing request not targeting the authentication
endpoints it reads the Token Store and, when a credential is present,
attaches it as a bearer header; otherwise the request is left as it
is. -/
def interceptRequest (store : Option String) (req : Request) : Request :=
  if req.targetsAuthEndpoint then req
  else
    match store with
    | some t => { req with authHeader := some ("Bearer " ++ t) }
    | none => req

/-- Modelled from the spec: what the Route Guard renders (§4.5). -/
inductive Rendering
| protectedContent
| blocked
| loadingIndicator
deriving DecidableEq

/-- Modelled from the spec: the Route Guard (§4.5), not under `src/`: a
pure function of the Session Controller state and, for role-gated views,
an allow-list of roles.  It renders protected content only when
Authenticated (and, when an allow-list is given, only when the session's
role is in it), renders nothing / a redirect when Unauthenticated, and a
loading indicator when Checking or Unknown. -/
def routeGuard (s : SessionState) (allowList : Option (List String)) :
    Rendering :=
  match s with
  | SessionState.authenticated _ r =>
    match allowList with
    | none => Rendering.protectedContent
    | some roles =>
      if r ∈ roles then Rendering.protectedContent else Rendering.blocked
  | SessionState.unauthenticated => Rendering.blocked
  | SessionState.unknown => Rendering.loadingIndicator
  | SessionState.checking => Rendering.loadingIndicator

/-- A sample webpack config used to witness `webpack_frame_effects`. -/
def sampleWebpackConfig : WebpackConfig Nat :=
  { resolveAlias := some (fun k =>
      if k = "canvas" then some (AliasVal.path "./stub") else none)
  , externals := some [[("a", "b")]]
  , moduleRules := []
  , rest := 7 }

end Karunia

namespace Karunia

/-- C9: for every input webpack config, the customization function
preserves every pre-existing resolve alias except that it binds
`"sharp$"` to `false`; it appends exactly one `google.maps` externals
entry to the input externals (empty when absent); it appends exactly one
image asset/resource rule to the module rules; and it leaves every other
field of the config unchanged. -/
theorem webpack_frame_effects {ρ : Type} (config : WebpackConfig ρ) :
    (∀ k, k ≠ "sharp$" →
      ((webpack config).resolveAlias.getD (fun _ => none)) k
        = (config.resolveAlias.getD (fun _ => none)) k) ∧
    ((webpack config).resolveAlias.getD (fun _ => none)) "sharp$"
        = some AliasVal.disabled ∧
    (webpack config).externals
        = some (config.externals.getD [] ++ [googleMapsExternal]) ∧
    (webpack config).moduleRules = config.moduleRules ++ [imageAssetRule] ∧
    (webpack config).rest = config.rest := by
  refine ⟨?_, ?_, rfl, rfl, rfl⟩
  · intro k hk
    simp only [webpack, Option.getD_some, if_neg hk]
    cases config.resolveAlias <;> rfl
  · simp [webpack]

/-- Witness for C9 at a concrete config: the pre-existing `canvas` alias
survives, and the untouched field `rest` is preserved. -/
theorem webpack_frame_effects_witness :
    ((webpack sampleWebpackConfig).resolveAlias.getD (fun _ => none)) "canvas"
        = some (AliasVal.path "./stub") ∧
    (webpack sampleWebpackConfig).rest = 7 := by
  have h := webpack_frame_effects sampleWebpackConfig
  refine ⟨?_, h.2.2.2.2⟩
  have hc := h.1 "canvas" (by decide)
  rw [hc]
  rfl

/-- C1: for every run of the Session Controller started with a stored
credential, if the identity-verification call has not resolved within 10
seconds of starting (the timer wins the race, or the call never
resolves), the controller reaches Unauthenticated and the stored
credential is cleared, regardless of the call's eventual outcome;
moreover, for every possible resolution of the call, the controller
reaches a resolved terminal state, never hanging. -/
theorem session_timeout_clears_credential (c : String)
    (res : Option (Nat × IdentityOutcome))
    (h : callResolvesFirst res = false) :
    runSessionCheck (some c) res = (SessionState.unauthenticated, none) ∧
    ∀ res', isResolved (runSessionCheck (some c) res').1 = true := by
  constructor
  · simp [runSessionCheck, h]
  · intro res'
    cases h' : callResolvesFirst res' with
    | false => simp [runSessionCheck, h', isResolved]
    | true =>
      rcases res' with _ | ⟨t, o⟩
      · simp [callResolvesFirst] at h'
      · rcases o with ⟨u, r⟩ | _
        · simp [runSessionCheck, h', isResolved]
        · simp [runSessionCheck, h', isResolved]

/-- Witness for C1: with a stored credential and an identity call that
would succeed, but only at the 10-second mark, the controller ends
Unauthenticated with the credential cleared. -/
theorem session_timeout_clears_credential_witness :
    runSessionCheck (some "token")
        (some (10000, IdentityOutcome.success 1 "ADMIN"))
      = (SessionState.unauthenticated, none) :=
  (session_timeout_clears_credential "token"
    (some (10000, IdentityOutcome.success 1 "ADMIN")) rfl).1

/-- C2: for every HTTP response with status 401, from any prior
application state and whatever local handler the caller installed, the
response interceptor clears the Token Store, sets the session to
Unauthenticated and redirects navigation to the login view, overriding
the local handling. -/
theorem unauthorized_forces_logout (st : AppState)
    (localHandler : AppState → AppState) :
    processResponse st 401 localHandler = loggedOutState ∧
    (processResponse st 401 localHandler).tokenStore = none ∧
    (processResponse st 401 localHandler).session
        = SessionState.unauthenticated ∧
    (processResponse st 401 localHandler).nav = "/login" := by
  refine ⟨?_, ?_, ?_, ?_⟩ <;> simp [processResponse, loggedOutState]

/-- Unfolding of `invalidateResource` on a non-empty cache. -/
lemma invalidateResource_cons {α : Type} (k : String × ParamSet)
    (v : α × Bool) (rest : Cache α) (R : String) :
    invalidateResource ((k, v) :: rest) R
      = (if k.1 = R then (k, (v.1, true)) else (k, v))
          :: invalidateResource rest R := rfl

/-- Unfolding of `cacheLookup` on a non-empty cache. -/
lemma cacheLookup_cons {α : Type} (k : String × ParamSet) (v : α × Bool)
    (rest : Cache α) (key : String × ParamSet) :
    cacheLookup ((k, v) :: rest) key
      = if k = key then some v else cacheLookup rest key := rfl

/-- Looking a key up after invalidating a resource yields the original
entry with its staleness flag forced to `true` whenever the key is under
that resource. -/
lemma cacheLookup_invalidateResource {α : Type} (c : Cache α) (R : String)
    (P : ParamSet) :
    cacheLookup (invalidateResource c R) (R, P)
      = (cacheLookup c (R, P)).map (fun v => (v.1, true)) := by
  induction c with
  | nil => rfl
  | cons e rest ih =>
    rcases e with ⟨k, v⟩
    rw [invalidateResource_cons]
    by_cases hkR : k.1 = R
    · rw [if_pos hkR, cacheLookup_cons, cacheLookup_cons]
      by_cases hk : k = (R, P)
      · rw [if_pos hk, if_pos hk]
        rfl
      · rw [if_neg hk, if_neg hk]
        exact ih
    · rw [if_neg hkR, cacheLookup_cons, cacheLookup_cons]
      by_cases hk : k = (R, P)
      · exact absurd (by rw [hk]) hkR
      · rw [if_neg hk, if_neg hk]
        exact ih

/-- C3: every mutation (create/update/remove) on a resource synchronously
marks every cached entry keyed under that resource as stale, and a
subsequent list call on that resource issues a fresh network call. -/
theorem mutation_invalidates_cache {α : Type} (kind : MutationKind)
    (c : Cache α) (R : String) :
    (∀ e, e ∈ mutateOp kind c R → e.1.1 = R → e.2.2 = true) ∧
    (∀ (P : ParamSet) (fetch : α),
      (listOp (mutateOp kind c R) R P fetch).2.2 = true) := by
  constructor
  · intro e he hR
    simp only [mutateOp, invalidateResource, List.mem_map] at he
    rcases he with ⟨a, _, hae⟩
    by_cases h : a.1.1 = R
    · rw [if_pos h] at hae
      rw [← hae]
    · rw [if_neg h] at hae
      rw [← hae] at hR
      exact absurd hR h
  · intro P fetch
    have h := cacheLookup_invalidateResource c R P
    rcases hc : cacheLookup c (R, P) with _ | ⟨v, b⟩ <;> rw [hc] at h <;>
      simp [listOp, queryKey, mutateOp, h]

/-- Witness for C3 at a concrete one-entry cache: after an update on
resource "branches" the entry under it is stale, and the next list call
issues a network request. -/
theorem mutation_invalidates_cache_witness :
    ((("branches", ([] : ParamSet)), ((0 : Nat), true)).2.2 = true) ∧
    (listOp (mutateOp MutationKind.update
          [(("branches", []), ((0 : Nat), false))] "branches")
        "branches" [] 5).2.2 = true := by
  have h := mutation_invalidates_cache MutationKind.update
      [(("branches", ([] : ParamSet)), ((0 : Nat), false))] "branches"
  exact ⟨h.1 (("branches", []), (0, true)) (by decide) rfl, h.2 [] 5⟩

/-- Looking up the key just inserted at the head of the cache returns the
inserted entry. -/
lemma cacheLookup_cons_self {α : Type} (k : String × ParamSet) (v : α × Bool)
    (c : Cache α) : cacheLookup ((k, v) :: c) k = some v := by
  simp [cacheLookup]

/-- C4: two list calls with identical resource and parameter set and no
intervening mutation map to the same query key, and the second call
returns the same result as the first without a network call being
issued. -/
theorem repeated_list_served_from_cache {α : Type} (c : Cache α)
    (R : String) (P : ParamSet) (f₁ f₂ : α) (R₂ : String) (P₂ : ParamSet)
    (hR : R₂ = R) (hP : P₂ = P) :
    queryKey R₂ P₂ = queryKey R P ∧
    (listOp (listOp c R P f₁).2.1 R P f₂).1 = (listOp c R P f₁).1 ∧
    (listOp (listOp c R P f₁).2.1 R P f₂).2.2 = false := by
  subst hR
  subst hP
  refine ⟨rfl, ?_, ?_⟩ <;>
  · rcases hc : cacheLookup c (queryKey R₂ P₂) with _ | ⟨v, b⟩
    · simp [listOp, hc, cacheLookup_cons_self]
    · cases b
      · simp [listOp, hc]
      · simp [listOp, hc, cacheLookup_cons_self]

/-- Witness for C4: on an empty cache, the second of two identical list
calls on "branches" returns the first call's result with no network
call. -/
theorem repeated_list_served_from_cache_witness :
    queryKey "branches" [("page", "1")] = queryKey "branches" [("page", "1")] ∧
    (listOp (listOp ([] : Cache Nat) "branches" [("page", "1")] 3).2.1
        "branches" [("page", "1")] 4).1
      = (listOp ([] : Cache Nat) "branches" [("page", "1")] 3).1 ∧
    (listOp (listOp ([] : Cache Nat) "branches" [("page", "1")] 3).2.1
        "branches" [("page", "1")] 4).2.2 = false :=
  repeated_list_served_from_cache [] "branches" [("page", "1")] 3 4
    "branches" [("page", "1")] rfl rfl

/-- C5: for every id for which the backend returns no matching entity,
get fails with NotFound; and get never fabricates a success value: when
it succeeds, the value is exactly the entity the backend returned. -/
theorem get_nonexistent_notFound {α : Type} (d : Option α) :
    (d = none → getOp d = Except.error ApiError.notFound) ∧
    (∀ e, getOp d = Except.ok e → d = some e) := by
  constructor
  · intro h
    subst h
    rfl
  · intro e he
    cases d with
    | none => simp [getOp] at he
    | some x =>
      simp [getOp] at he
      rw [he]

/-- Witness for C5: a backend answer with no matching entity yields
NotFound. -/
theorem get_nonexistent_notFound_witness :
    getOp (none : Option Nat) = Except.error ApiError.notFound :=
  (get_nonexistent_notFound (none : Option Nat)).1 rfl

/-- C6: list translates its filter/sort/pagination parameters into
bracket-notation query parameters — `pagination[page]` and
`pagination[pageSize]` for the pagination bounds, `sort[field]=dir` for
every per-field sort direction, and a population entry for every relation
to populate — and unwraps the envelope into items and total; in
particular an envelope with a 10-element data array and pagination total
42 yields 10 items and total 42. -/
theorem list_translates_and_unwraps {α : Type} (p : ListParams)
    (env : ListEnvelope α) :
    (listAccessor p env).2.items = env.data ∧
    (listAccessor p env).2.total = env.metaPagination.total ∧
    (∀ n, p.page = some n →
      ("pagination[page]", toString n) ∈ (listAccessor p env).1) ∧
    (∀ n, p.pageSize = some n →
      ("pagination[pageSize]", toString n) ∈ (listAccessor p env).1) ∧
    (∀ fd, fd ∈ p.sort →
      ("sort[" ++ fd.1 ++ "]", fd.2) ∈ (listAccessor p env).1) ∧
    (∀ r, r ∈ p.populate →
      ("populate", r) ∈ (listAccessor p env).1) ∧
    (env.data.length = 10 → env.metaPagination.total = 42 →
      (listAccessor p env).2.items.length = 10 ∧
      (listAccessor p env).2.total = 42) := by
  refine ⟨rfl, rfl, ?_, ?_, ?_, ?_, ?_⟩
  · intro n hn
    simp [listAccessor, translateParams, hn]
  · intro n hn
    simp [listAccessor, translateParams, hn]
  · intro fd hfd
    exact List.mem_append_left _
      (List.mem_append_right _ (List.mem_map_of_mem _ hfd))
  · intro r hr
    exact List.mem_append_right _ (List.mem_map_of_mem _ hr)
  · intro hlen htot
    exact ⟨hlen, htot⟩

/-- The concrete envelope of the spec's list scenario: ten entities, total
42. -/
def sampleEnvelope : ListEnvelope Nat :=
  { data := [0, 1, 2, 3, 4, 5, 6, 7, 8, 9]
  , metaPagination := { page := 1, pageSize := 10, total := 42 } }

/-- The concrete parameters of the spec's list scenario, extended with a
per-field sort direction and a relation to populate. -/
def sampleListParams : ListParams :=
  { page := some 1
  , pageSize := some 10
  , sort := [("name", "asc")]
  , populate := ["branch"] }

/-- Witness for C6 at the spec's scenario: page parameter, per-field sort
and relation population in bracket notation, ten items, total 42. -/
theorem list_translates_and_unwraps_witness :
    ("pagination[page]", toString (1 : Nat))
        ∈ (listAccessor sampleListParams sampleEnvelope).1 ∧
    ("sort[" ++ "name" ++ "]", "asc")
        ∈ (listAccessor sampleListParams sampleEnvelope).1 ∧
    ("populate", "branch")
        ∈ (listAccessor sampleListParams sampleEnvelope).1 ∧
    (listAccessor sampleListParams sampleEnvelope).2.items.length = 10 ∧
    (listAccessor sampleListParams sampleEnvelope).2.total = 42 := by
  have h := list_translates_and_unwraps sampleListParams sampleEnvelope
  refine ⟨h.2.2.1 1 rfl, ?_, ?_,
    (h.2.2.2.2.2.2 rfl rfl).1, (h.2.2.2.2.2.2 rfl rfl).2⟩
  · exact h.2.2.2.2.1 ("name", "asc") (by decide)
  · exact h.2.2.2.2.2.1 "branch" (by decide)

/-- C7: for every outgoing request not targeting the authentication
endpoints, the request interceptor attaches the stored credential as a
bearer header exactly when one is present; with no stored credential the
request is sent without an auth header. -/
theorem request_interceptor_bearer (store : Option String) (req : Request)
    (hna : req.targetsAuthEndpoint = false) :
    (∀ t, store = some t →
      (interceptRequest store req).authHeader = some ("Bearer " ++ t)) ∧
    (store = none → req.authHeader = none →
      (interceptRequest store req).authHeader = none) := by
  constructor
  · intro t ht
    subst ht
    simp [interceptRequest, hna]
  · intro hs hh
    subst hs
    simp [interceptRequest, hna, hh]

/-- Witness for C7: a non-auth request with a stored token gets the
bearer header. -/
theorem request_interceptor_bearer_witness :
    (interceptRequest (some "tok")
        { targetsAuthEndpoint := false, authHeader := none }).authHeader
      = some ("Bearer " ++ "tok") :=
  (request_interceptor_bearer (some "tok")
      { targetsAuthEndpoint := false, authHeader := none } rfl).1 "tok" rfl

/-- C8: the Route Guard is a pure function of the Session Controller
state: it renders protected content iff the state is Authenticated and,
when an allow-list is given, the session's role is in it; it renders
blocked (nothing / redirect) when Unauthenticated; and it renders a
loading indicator when Checking or Unknown. -/
theorem route_guard_renders (s : SessionState)
    (allowList : Option (List String)) :
    (routeGuard s allowList = Rendering.protectedContent ↔
      ∃ u r, s = SessionState.authenticated u r ∧
        (allowList = none ∨ ∃ roles, allowList = some roles ∧ r ∈ roles)) ∧
    (s = SessionState.unauthenticated →
      routeGuard s allowList = Rendering.blocked) ∧
    (s = SessionState.checking ∨ s = SessionState.unknown →
      routeGuard s allowList = Rendering.loadingIndicator) := by
  refine ⟨⟨?_, ?_⟩, ?_, ?_⟩
  · intro h
    cases s with
    | authenticated u r =>
      refine ⟨u, r, rfl, ?_⟩
      cases allowList with
      | none => exact Or.inl rfl
      | some roles =>
        by_cases hr : r ∈ roles
        · exact Or.inr ⟨roles, rfl, hr⟩
        · simp [routeGuard, hr] at h
    | unknown => simp [routeGuard] at h
    | checking => simp [routeGuard] at h
    | unauthenticated => simp [routeGuard] at h
  · rintro ⟨u, r, rfl, rfl | ⟨roles, rfl, hr⟩⟩
    · rfl
    · simp [routeGuard, hr]
  · rintro rfl
    rfl
  · rintro (rfl | rfl) <;> rfl

/-- Witness for C8: an authenticated ADMIN session against an allow-list
containing ADMIN renders the protected content. -/
theorem route_guard_renders_witness :
    routeGuard (SessionState.authenticated 1 "ADMIN")
        (some ["ADMIN", "STAFF"])
      = Rendering.protectedContent := by
  have h := route_guard_renders (SessionState.authenticated 1 "ADMIN")
      (some ["ADMIN", "STAFF"])
  exact h.1.mpr ⟨1, "ADMIN", rfl, Or.inr ⟨["ADMIN", "STAFF"], rfl, by decide⟩⟩

/-- C10: the exported configuration object constantly sets `output` to
`"export"`, `images.unoptimized`, `reactStrictMode`,
`eslint.ignoreDuringBuilds` and `typescript.ignoreBuildErrors` to `true`,
independent of any input or environment. -/
theorem nextConfig_static_fields :
    nextConfig.output = "export" ∧
    nextConfig.imagesUnoptimized = true ∧
    nextConfig.reactStrictMode = true ∧
    nextConfig.eslintIgnoreDuringBuilds = true ∧
    nextConfig.typescriptIgnoreBuildErrors = true :=
  ⟨rfl, rfl, rfl, rfl, rfl⟩

end Karunia
